import Mathlib

/-!
Verification of `modules/api/functional_test/live_tests/shared_zone_test_context.py`
(the `SharedZoneTestContext` fixture orchestrator of the vinyldns repository).

The orchestrator talks to a remote zone-management service through the
`vinyldns_python` client.  We embed it shallowly in two complementary ways:

1. A *trace model*: every remote call the Python code issues is recorded as a
   `Call` event, the remote's answers are supplied by an oracle `Env`, and a
   computation yields `List Call × Except Err α`.  `acquire` embeds
   `SharedZoneTestContext.__init__`, `tearDownCalls` embeds `tear_down`'s call
   sequence, `confirm_member_in_group` embeds the retry loop verbatim.

2. A *state model* for `tear_down`'s effect on the remote system
   (`RemoteState`), with the bulk helpers `clear_zones` / `clear_groups`
   (imported by the source from `utils`, which is not part of the sources we
   were given) modelled from the specification's description of them.
-/

namespace Vinyldns

/-- The two authenticated identities of the fixture: the `ok_vinyldns_client`
(primary) and the `dummy_vinyldns_client` (secondary). -/
inductive ClientId where
  | ok
  | dummy
deriving DecidableEq, Repr

/-- An ACL rule as built in the `parent.com.` zone request
(`accessLevel` / `description` / `userId` keys). -/
structure Rule where
  accessLevel : String
  description : String
  userId : String
deriving DecidableEq, Repr

/-- A DNS connection descriptor (`connection` / `transferConnection` values):
a name plus the shared `VinylDNSTestContext` key material. -/
structure Connection where
  name : String
  keyName : String
  key : String
  primaryServer : String
deriving DecidableEq, Repr

/-- The zone-creation request body as built in `__init__`: zones other than
`parent.com.` carry no `acl` key, which we render as an empty rule list. -/
structure ZoneSpec where
  name : String
  email : String
  shared : Bool
  adminGroupId : String
  aclRules : List Rule
  connection : Connection
  transferConnection : Connection
deriving DecidableEq, Repr

/-- A zone representation as returned by the remote service (the `zone` field
of a pending zone-change response).  Its contents are chosen by the
environment oracle; the fields below are the ones the claims inspect. -/
structure Zone where
  id : String
  name : String
  aclRules : List Rule
deriving DecidableEq, Repr

/-- A group record (both request bodies and remote responses use this shape;
request bodies without an `id` use `""`).  Membership lists hold member ids,
mirroring the `[{'id': ...}]` dictionaries of the source. -/
structure Group where
  id : String
  name : String
  email : String
  description : String
  members : List String
  admins : List String
deriving DecidableEq, Repr

/-- One remote call issued by the orchestrator, with the HTTP status the
client is told to require where the source passes `status=...`. -/
inductive Call where
  | getGroup (c : ClientId) (gid : String) (expect : Nat)
  | createGroup (c : ClientId) (g : Group) (expect : Nat)
  | listGroups (c : ClientId) (expect : Nat)
  | createZone (c : ClientId) (spec : ZoneSpec) (expect : Nat)
  | waitZone (c : ClientId) (zoneName : String)
  | listZones (c : ClientId)
  | sleepMs (ms : Nat)
  | clearZones (c : ClientId)
  | clearGroups (c : ClientId) (exclude : List String)
  | updateGroup (c : ClientId) (gid : String) (g : Group) (expect : Nat)
deriving DecidableEq, Repr

/-- Exceptions the embedded code can raise: a client status assertion
(`status=...` mismatch), a hamcrest `assert_that` failure, a
`wait_until_zone_exists` timeout, or a failure inside a `utils` bulk helper. -/
inductive Err where
  | statusErr (expected actual : Nat)
  | assertFailed
  | waitTimeout
  | clearFailed
deriving DecidableEq, Repr

/-- Result of running a fragment of the orchestrator: the calls it issued, and
either its value or the exception that escaped. -/
abbrev Res (α : Type) : Type := List Call × Except Err α

/-- Sequencing with exception propagation: the second fragment runs only when
the first returned normally; traces concatenate. -/
def rbind {α β : Type} (x : Res α) (f : α → Res β) : Res β :=
  match x.2 with
  | Except.error e => (x.1, Except.error e)
  | Except.ok a => (x.1 ++ (f a).1, (f a).2)

/-- A fragment that issues no call and returns a value. -/
def rpure {α : Type} (a : α) : Res α := ([], Except.ok a)

/-- A `list_all_my_groups(status=200)` call; the oracle `listR` gives the
status and body of the k-th listing this call site performs. -/
def listCallStep (c : ClientId) (listR : Nat → Nat × List Group) (k : Nat) :
    Res (List Group) :=
  ([Call.listGroups c 200],
   if (listR k).1 = 200 then Except.ok (listR k).2
   else Except.error (Err.statusErr 200 (listR k).1))

/-- A hamcrest `assert_that(b, is_(True))`: no remote call, raises on `false`. -/
def assertStep (b : Bool) : Res Unit :=
  ([], if b then Except.ok () else Except.error Err.assertFailed)

/-- The `while retries >= 0 and not success:` loop of
`confirm_member_in_group`, with `fuel = retries + 1` and `k` the index of the
next listing the oracle will answer.  Each iteration re-lists the groups,
sleeps 50 ms unconditionally, and decrements the budget. -/
def pollLoop (c : ClientId) (listR : Nat → Nat × List Group) (g : Group) :
    Nat → Nat → Bool → Res Bool
  | 0, _, success => rpure success
  | fuel + 1, k, success =>
    if success then rpure success
    else
      rbind (listCallStep c listR k) fun gs =>
        rbind (([Call.sleepMs 50], Except.ok ()) : Res Unit) fun _ =>
          pollLoop c listR g fuel (k + 1) (decide (g ∈ gs))

/-- `confirm_member_in_group(client, group)`: one initial listing, then the
retry loop with `retries = 2` (so at most three further listings), then
`assert_that(success, is_(True))`. -/
def confirm_member_in_group (c : ClientId) (listR : Nat → Nat × List Group)
    (g : Group) : Res Unit :=
  rbind (listCallStep c listR 0) fun gs =>
    rbind (pollLoop c listR g 3 1 (decide (g ∈ gs))) fun success =>
      assertStep success

/-- Number of `list_all_my_groups` calls in a trace. -/
def listCallCount (tr : List Call) : Nat :=
  tr.countP fun c => match c with
    | Call.listGroups _ _ => true
    | _ => false

/-- Number of `time.sleep` events in a trace. -/
def sleepCount (tr : List Call) : Nat :=
  tr.countP fun c => match c with
    | Call.sleepMs _ => true
    | _ => false

/-- The canonical primary group body, as `tear_down` resets it
(`id`/`name` `ok`, members and admins exactly the primary identity). -/
def okGroupBaseline : Group :=
  { id := "ok", name := "ok", email := "test@test.com",
    description := "this is a description", members := ["ok"], admins := ["ok"] }

/-! ### State model of `tear_down`'s effect on the remote system -/

/-- The remote service's zone/group namespace as the fixture sees it: the
zones and groups visible to (owned by) each of the two identities. -/
@[ext]
structure RemoteState where
  dummyZones : List Zone
  okZones : List Zone
  dummyGroups : List Group
  okGroups : List Group
deriving DecidableEq, Repr

/-- Modelled from the spec: `clear_zones(client)` comes from the `utils`
module, which is not among the given sources; per the specification it
idempotently deletes all zones visible to the client. -/
def clear_zones (c : ClientId) (s : RemoteState) : RemoteState :=
  match c with
  | ClientId.dummy => { s with dummyZones := [] }
  | ClientId.ok => { s with okZones := [] }

/-- Modelled from the spec: `clear_groups(client, exclude=[...])` comes from
the `utils` module, which is not among the given sources; per the
specification it idempotently deletes all groups visible to the client,
excluding the named group ids. -/
def clear_groups (c : ClientId) (exclude : List String) (s : RemoteState) :
    RemoteState :=
  match c with
  | ClientId.dummy => { s with dummyGroups := s.dummyGroups.filter fun g => exclude.contains g.id }
  | ClientId.ok => { s with okGroups := s.okGroups.filter fun g => exclude.contains g.id }

/-- `update_group(id, spec, status=200)` on the primary identity's view:
the group with the given id is replaced by the submitted record. -/
def update_group (gid : String) (g : Group) (s : RemoteState) : RemoteState :=
  { s with okGroups := s.okGroups.map fun h => if h.id = gid then g else h }

/-- `tear_down`'s effect on the remote state: clear both identities' zones,
clear the secondary identity's groups, clear the primary identity's groups
except `ok`, then reset the `ok` group to its baseline record. -/
def tear_down (s : RemoteState) : RemoteState :=
  update_group "ok" okGroupBaseline
    (clear_groups ClientId.ok ["ok"]
      (clear_groups ClientId.dummy []
        (clear_zones ClientId.ok
          (clear_zones ClientId.dummy s))))

/-! ### The fixture's zone catalog -/

/-- Modelled from the spec: `VinylDNSTestContext.dns_key_name` is external
configuration (the `vinyldns_context` module is not among the given sources);
the claims never depend on its value. -/
def dns_key_name : String := "vinyldns."

/-- Modelled from the spec: `VinylDNSTestContext.dns_key`, external
configuration as above. -/
def dns_key : String := "dns-key"

/-- Modelled from the spec: `VinylDNSTestContext.dns_ip`, external
configuration as above. -/
def dns_ip : String := "127.0.0.1"

/-- The shared connection descriptor template, parameterized per zone by a
connection name, exactly as every zone request builds its `connection` and
`transferConnection` values. -/
def connFor (n : String) : Connection :=
  { name := n, keyName := dns_key_name, key := dns_key, primaryServer := dns_ip }

/-- The `ok.` zone request (shared=false, admin group = the canonical group). -/
def okZoneSpec (gid : String) : ZoneSpec :=
  { name := "ok.", email := "test@test.com", shared := false, adminGroupId := gid,
    aclRules := [], connection := connFor "ok.", transferConnection := connFor "ok." }

/-- The `dummy.` zone request (shared=false, admin group = the dummy group). -/
def dummyZoneSpec (gid : String) : ZoneSpec :=
  { name := "dummy.", email := "test@test.com", shared := false, adminGroupId := gid,
    aclRules := [], connection := connFor "dummy.", transferConnection := connFor "dummy." }

/-- The `1.9.e.f.c.c.7.2.9.6.d.f.ip6.arpa.` zone request (shared=true). -/
def ip6ReverseZoneSpec (gid : String) : ZoneSpec :=
  { name := "1.9.e.f.c.c.7.2.9.6.d.f.ip6.arpa.", email := "test@test.com",
    shared := true, adminGroupId := gid,
    aclRules := [], connection := connFor "ip6.", transferConnection := connFor "ip6." }

/-- The `30.172.in-addr.arpa.` zone request (shared=true). -/
def ip4ReverseZoneSpec (gid : String) : ZoneSpec :=
  { name := "30.172.in-addr.arpa.", email := "test@test.com",
    shared := true, adminGroupId := gid,
    aclRules := [], connection := connFor "ip4.", transferConnection := connFor "ip4." }

/-- The `2.0.192.in-addr.arpa.` zone request (shared=false). -/
def classlessBaseZoneSpec (gid : String) : ZoneSpec :=
  { name := "2.0.192.in-addr.arpa.", email := "test@test.com",
    shared := false, adminGroupId := gid,
    aclRules := [], connection := connFor "classless-base.",
    transferConnection := connFor "classless-base." }

/-- The `192/30.2.0.192.in-addr.arpa.` zone request (shared=false). -/
def classlessDelegationZoneSpec (gid : String) : ZoneSpec :=
  { name := "192/30.2.0.192.in-addr.arpa.", email := "test@test.com",
    shared := false, adminGroupId := gid,
    aclRules := [], connection := connFor "classless.",
    transferConnection := connFor "classless." }

/-- The `system-test.` zone request (shared=true). -/
def systemTestZoneSpec (gid : String) : ZoneSpec :=
  { name := "system-test.", email := "test@test.com",
    shared := true, adminGroupId := gid,
    aclRules := [], connection := connFor "system-test.",
    transferConnection := connFor "system-test." }

/-- The single ACL rule of the `parent.com.` request: `Delete` access for the
`dummy` user with description `some_test_rule`. -/
def parentAclRule : Rule :=
  { accessLevel := "Delete", description := "some_test_rule", userId := "dummy" }

/-- The `parent.com.` zone request (shared=false, carrying one ACL rule). -/
def parentZoneSpec (gid : String) : ZoneSpec :=
  { name := "parent.com.", email := "test@test.com",
    shared := false, adminGroupId := gid,
    aclRules := [parentAclRule], connection := connFor "parent.",
    transferConnection := connFor "parent." }

/-- The fixture's zone catalog, in creation order, each request paired with
the client that issues it. -/
def catalog (okId dummyId : String) : List (ClientId × ZoneSpec) :=
  [(ClientId.ok, okZoneSpec okId),
   (ClientId.dummy, dummyZoneSpec dummyId),
   (ClientId.ok, ip6ReverseZoneSpec okId),
   (ClientId.ok, ip4ReverseZoneSpec okId),
   (ClientId.ok, classlessBaseZoneSpec okId),
   (ClientId.ok, classlessDelegationZoneSpec okId),
   (ClientId.ok, systemTestZoneSpec okId),
   (ClientId.ok, parentZoneSpec okId)]

/-- The secondary group request body built in `__init__` (no id). -/
def dummyGroupSpec : Group :=
  { id := "", name := "dummy-group", email := "test@test.com",
    description := "this is a description", members := ["dummy"], admins := ["dummy"] }

/-! ### Environment oracle and the trace model of `__init__` / `tear_down` -/

/-- Oracle answers for one run of `tear_down`: whether each bulk helper call
returns normally, and the status of the final `update_group` call. -/
structure TdEnv where
  clearZonesDummy : Bool
  clearZonesOk : Bool
  clearGroupsDummy : Bool
  clearGroupsOk : Bool
  updateStatus : Nat

/-- The environment oracle: the remote's answer to every call `__init__` can
issue.  `td1` answers the unconditional initial `tear_down`, `td2` the
recovery `tear_down` of the `except` block.  Listing oracles are indexed by
how many listings that call site has already made. -/
structure Env where
  td1 : TdEnv
  td2 : TdEnv
  getOkGroup : Nat × Group
  okGroupsList : Nat → Nat × List Group
  createDummyGroup : Nat × Group
  dummyGroupsList : Nat → Nat × List Group
  createZone : ZoneSpec → Nat × Zone
  waitOk : String → Bool
  listZonesResp : ClientId → List Zone

/-- A `clear_zones(client)` helper call that either returns or raises. -/
def clearZonesStep (c : ClientId) (ok : Bool) : Res Unit :=
  ([Call.clearZones c],
   if ok then Except.ok () else Except.error Err.clearFailed)

/-- A `clear_groups(client, exclude)` helper call that either returns or raises. -/
def clearGroupsStep (c : ClientId) (exclude : List String) (ok : Bool) : Res Unit :=
  ([Call.clearGroups c exclude],
   if ok then Except.ok () else Except.error Err.clearFailed)

/-- The `update_group(ok_group['id'], ok_group, status=200)` call of `tear_down`. -/
def updateGroupStep (st : Nat) : Res Unit :=
  ([Call.updateGroup ClientId.ok "ok" okGroupBaseline 200],
   if st = 200 then Except.ok () else Except.error (Err.statusErr 200 st))

/-- The call sequence of `tear_down`: clear the dummy zones, the ok zones,
the dummy groups, the ok groups except `ok`, then reset the `ok` group. -/
def tearDownCalls (t : TdEnv) : Res Unit :=
  rbind (clearZonesStep ClientId.dummy t.clearZonesDummy) fun _ =>
    rbind (clearZonesStep ClientId.ok t.clearZonesOk) fun _ =>
      rbind (clearGroupsStep ClientId.dummy [] t.clearGroupsDummy) fun _ =>
        rbind (clearGroupsStep ClientId.ok ["ok"] t.clearGroupsOk) fun _ =>
          updateGroupStep t.updateStatus

/-- `get_group("ok", status=200)` on the primary client. -/
def getGroupStep (env : Env) : Res Group :=
  ([Call.getGroup ClientId.ok "ok" 200],
   if (env.getOkGroup).1 = 200 then Except.ok (env.getOkGroup).2
   else Except.error (Err.statusErr 200 (env.getOkGroup).1))

/-- `create_group(dummy_group, status=200)` on the secondary client. -/
def createGroupStep (env : Env) : Res Group :=
  ([Call.createGroup ClientId.dummy dummyGroupSpec 200],
   if (env.createDummyGroup).1 = 200 then Except.ok (env.createDummyGroup).2
   else Except.error (Err.statusErr 200 (env.createDummyGroup).1))

/-- A `create_zone(spec, status=202)` call: the pending zone change's `zone`
field is returned only when the remote answers 202. -/
def createZoneStep (env : Env) (c : ClientId) (spec : ZoneSpec) : Res Zone :=
  ([Call.createZone c spec 202],
   if (env.createZone spec).1 = 202 then Except.ok (env.createZone spec).2
   else Except.error (Err.statusErr 202 (env.createZone spec).1))

/-- A `wait_until_zone_exists(change)` call, identified by the awaited
change's zone name; raises on convergence timeout. -/
def waitStep (env : Env) (c : ClientId) (zoneName : String) : Res Unit :=
  ([Call.waitZone c zoneName],
   if env.waitOk zoneName then Except.ok () else Except.error Err.waitTimeout)

/-- A `list_zones()` call returning the `zones` field. -/
def listZonesStep (env : Env) (c : ClientId) : Res (List Zone) :=
  ([Call.listZones c], Except.ok (env.listZonesResp c))

/-- The zone objects `__init__` stores on `self`, one per catalog entry. -/
structure FixtureZones where
  ok_zone : Zone
  dummy_zone : Zone
  ip6_reverse_zone : Zone
  ip4_reverse_zone : Zone
  classless_base_zone : Zone
  classless_zone_delegation_zone : Zone
  system_test_zone : Zone
  parent_zone : Zone
deriving DecidableEq, Repr

/-- The state a successful `__init__` exposes to callers. -/
structure Fixture where
  ok_group : Group
  dummy_group : Group
  zones : FixtureZones
deriving DecidableEq, Repr

/-- Steps 2-3 of `__init__`: fetch the canonical `ok` group and confirm
membership, create the `dummy-group` and confirm membership. -/
def phaseGroups (env : Env) : Res (Group × Group) :=
  rbind (getGroupStep env) fun okG =>
    rbind (confirm_member_in_group ClientId.ok env.okGroupsList okG) fun _ =>
      rbind (createGroupStep env) fun dG =>
        rbind (confirm_member_in_group ClientId.dummy env.dummyGroupsList dG) fun _ =>
          rpure (okG, dG)

/-- Step 4 of `__init__`: the eight `create_zone(..., status=202)` calls, in
source order, keeping each pending change's `zone` field. -/
def phaseZones (env : Env) (okId dummyId : String) : Res FixtureZones :=
  rbind (createZoneStep env ClientId.ok (okZoneSpec okId)) fun okZ =>
    rbind (createZoneStep env ClientId.dummy (dummyZoneSpec dummyId)) fun dZ =>
      rbind (createZoneStep env ClientId.ok (ip6ReverseZoneSpec okId)) fun ip6Z =>
        rbind (createZoneStep env ClientId.ok (ip4ReverseZoneSpec okId)) fun ip4Z =>
          rbind (createZoneStep env ClientId.ok (classlessBaseZoneSpec okId)) fun cbZ =>
            rbind (createZoneStep env ClientId.ok (classlessDelegationZoneSpec okId)) fun cdZ =>
              rbind (createZoneStep env ClientId.ok (systemTestZoneSpec okId)) fun stZ =>
                rbind (createZoneStep env ClientId.ok (parentZoneSpec okId)) fun pZ =>
                  rpure
                    { ok_zone := okZ, dummy_zone := dZ, ip6_reverse_zone := ip6Z,
                      ip4_reverse_zone := ip4Z, classless_base_zone := cbZ,
                      classless_zone_delegation_zone := cdZ,
                      system_test_zone := stZ, parent_zone := pZ }

/-- Step 5 of `__init__`: the nine `wait_until_zone_exists` calls, in source
order (`system-test.` first and again eighth, `dummy.` via the dummy client). -/
def phaseWaits (env : Env) : Res Unit :=
  rbind (waitStep env ClientId.ok "system-test.") fun _ =>
    rbind (waitStep env ClientId.ok "ok.") fun _ =>
      rbind (waitStep env ClientId.dummy "dummy.") fun _ =>
        rbind (waitStep env ClientId.ok "1.9.e.f.c.c.7.2.9.6.d.f.ip6.arpa.") fun _ =>
          rbind (waitStep env ClientId.ok "30.172.in-addr.arpa.") fun _ =>
            rbind (waitStep env ClientId.ok "2.0.192.in-addr.arpa.") fun _ =>
              rbind (waitStep env ClientId.ok "192/30.2.0.192.in-addr.arpa.") fun _ =>
                rbind (waitStep env ClientId.ok "system-test.") fun _ =>
                  waitStep env ClientId.ok "parent.com."

/-- Step 6 of `__init__`: `list_zones()` under each identity with the
`assert_that(len(zones), is_(n))` checks (2 for dummy, 7 for ok). -/
def phaseValidate (env : Env) : Res Unit :=
  rbind (listZonesStep env ClientId.dummy) fun dzs =>
    rbind (assertStep (dzs.length == 2)) fun _ =>
      rbind (listZonesStep env ClientId.ok) fun ozs =>
        assertStep (ozs.length == 7)

/-- The body of the `try:` block of `__init__`: groups, zone creations,
convergence waits, count validation, then the fixture value. -/
def acquireBody (env : Env) : Res Fixture :=
  rbind (phaseGroups env) fun gs =>
    rbind (phaseZones env gs.1.id gs.2.id) fun zs =>
      rbind (phaseWaits env) fun _ =>
        rbind (phaseValidate env) fun _ =>
          rpure { ok_group := gs.1, dummy_group := gs.2, zones := zs }

/-- `SharedZoneTestContext.__init__` (the spec's `acquire()`): the
unconditional initial `tear_down`, then the `try:` body; on a body exception
the recovery `tear_down` is attempted, its own outcome swallowed, and the
original exception re-raised. -/
def acquire (env : Env) : Res Fixture :=
  rbind (tearDownCalls env.td1) fun _ =>
    match acquireBody env with
    | (tr, Except.ok fx) => (tr, Except.ok fx)
    | (tr, Except.error e) => (tr ++ (tearDownCalls env.td2).1, Except.error e)

/-- The `create_zone` calls of a trace, with client, request and required status. -/
def createZoneArgs (tr : List Call) : List (ClientId × ZoneSpec × Nat) :=
  tr.filterMap fun c => match c with
    | Call.createZone cl spec e => some (cl, spec, e)
    | _ => none

/-- The `wait_until_zone_exists` calls of a trace, with client and zone name. -/
def waitArgs (tr : List Call) : List (ClientId × String) :=
  tr.filterMap fun c => match c with
    | Call.waitZone cl n => some (cl, n)
    | _ => none

/-! ### A concrete healthy environment, used by the witnesses -/

/-- A remote answer that echoes the submitted zone request as the pending
zone representation. -/
def echoZone (spec : ZoneSpec) : Zone :=
  { id := spec.name ++ "id", name := spec.name, aclRules := spec.aclRules }

/-- `tear_down` oracle answers for a healthy remote. -/
def tdEnvOk : TdEnv :=
  { clearZonesDummy := true, clearZonesOk := true, clearGroupsDummy := true,
    clearGroupsOk := true, updateStatus := 200 }

/-- The secondary group as a healthy remote returns it from `create_group`. -/
def dummyGroupCreated : Group :=
  { dummyGroupSpec with id := "dummy-group-id" }

/-- A healthy environment: every status is as required, both memberships are
visible on the first listing, every wait converges, and the final listings
hold 2 and 7 zones respectively. -/
def goodEnv : Env :=
  { td1 := tdEnvOk, td2 := tdEnvOk,
    getOkGroup := (200, okGroupBaseline),
    okGroupsList := fun _ => (200, [okGroupBaseline]),
    createDummyGroup := (200, dummyGroupCreated),
    dummyGroupsList := fun _ => (200, [dummyGroupCreated]),
    createZone := fun s => (202, echoZone s),
    waitOk := fun _ => true,
    listZonesResp := fun c => match c with
      | ClientId.dummy =>
          [echoZone (dummyZoneSpec "dummy-group-id"), echoZone (okZoneSpec "ok")]
      | ClientId.ok =>
          [echoZone (okZoneSpec "ok"), echoZone (ip6ReverseZoneSpec "ok"),
           echoZone (ip4ReverseZoneSpec "ok"), echoZone (classlessBaseZoneSpec "ok"),
           echoZone (classlessDelegationZoneSpec "ok"),
           echoZone (systemTestZoneSpec "ok"), echoZone (parentZoneSpec "ok")] }

/-- The fixture `acquire goodEnv` produces. -/
def goodFx : Fixture :=
  { ok_group := okGroupBaseline, dummy_group := dummyGroupCreated,
    zones :=
      { ok_zone := echoZone (okZoneSpec "ok"),
        dummy_zone := echoZone (dummyZoneSpec "dummy-group-id"),
        ip6_reverse_zone := echoZone (ip6ReverseZoneSpec "ok"),
        ip4_reverse_zone := echoZone (ip4ReverseZoneSpec "ok"),
        classless_base_zone := echoZone (classlessBaseZoneSpec "ok"),
        classless_zone_delegation_zone := echoZone (classlessDelegationZoneSpec "ok"),
        system_test_zone := echoZone (systemTestZoneSpec "ok"),
        parent_zone := echoZone (parentZoneSpec "ok") } }

/-! ### Inversion lemmas for the trace model -/

theorem rbind_ok_ex {α β : Type} {x : Res α} {f : α → Res β} {b : β}
    (h : (rbind x f).2 = Except.ok b) :
    ∃ a, x.2 = Except.ok a ∧ (f a).2 = Except.ok b := by
  unfold rbind at h
  cases hx : x.2 with
  | error e => rw [hx] at h; simp at h
  | ok a => rw [hx] at h; exact ⟨a, rfl, h⟩

theorem rbind_fst_ok {α β : Type} {x : Res α} {f : α → Res β} {a : α}
    (h : x.2 = Except.ok a) :
    (rbind x f).1 = x.1 ++ (f a).1 := by
  unfold rbind; rw [h]

theorem getGroupStep_ok {env : Env} {g : Group}
    (h : (getGroupStep env).2 = Except.ok g) :
    (env.getOkGroup).1 = 200 ∧ g = (env.getOkGroup).2 := by
  unfold getGroupStep at h
  split at h <;> simp_all

theorem createGroupStep_ok {env : Env} {g : Group}
    (h : (createGroupStep env).2 = Except.ok g) :
    (env.createDummyGroup).1 = 200 ∧ g = (env.createDummyGroup).2 := by
  unfold createGroupStep at h
  split at h <;> simp_all

theorem createZoneStep_ok {env : Env} {c : ClientId} {spec : ZoneSpec} {z : Zone}
    (h : (createZoneStep env c spec).2 = Except.ok z) :
    (env.createZone spec).1 = 202 ∧ z = (env.createZone spec).2 := by
  unfold createZoneStep at h
  split at h <;> simp_all

theorem waitStep_ok {env : Env} {c : ClientId} {n : String}
    (h : (waitStep env c n).2 = Except.ok ()) :
    env.waitOk n = true := by
  unfold waitStep at h
  split at h <;> simp_all

theorem assertStep_ok {b : Bool} (h : (assertStep b).2 = Except.ok ()) :
    b = true := by
  unfold assertStep at h
  split at h <;> simp_all

theorem phaseGroups_ok {env : Env} {gs : Group × Group}
    (h : (phaseGroups env).2 = Except.ok gs) :
    (env.getOkGroup).1 = 200 ∧ gs.1 = (env.getOkGroup).2 ∧
    (env.createDummyGroup).1 = 200 ∧ gs.2 = (env.createDummyGroup).2 ∧
    (confirm_member_in_group ClientId.ok env.okGroupsList gs.1).2 = Except.ok () ∧
    (confirm_member_in_group ClientId.dummy env.dummyGroupsList gs.2).2 = Except.ok () ∧
    (phaseGroups env).1 =
      Call.getGroup ClientId.ok "ok" 200 ::
        ((confirm_member_in_group ClientId.ok env.okGroupsList gs.1).1 ++
          (Call.createGroup ClientId.dummy dummyGroupSpec 200 ::
            (confirm_member_in_group ClientId.dummy env.dummyGroupsList gs.2).1)) := by
  unfold phaseGroups at h ⊢
  obtain ⟨okG, h1, h2⟩ := rbind_ok_ex h
  obtain ⟨u1, h3, h4⟩ := rbind_ok_ex h2
  obtain ⟨dG, h5, h6⟩ := rbind_ok_ex h4
  obtain ⟨u2, h7, h8⟩ := rbind_ok_ex h6
  cases u1; cases u2
  simp only [rpure] at h8
  obtain ⟨hs1, hg1⟩ := getGroupStep_ok h1
  obtain ⟨hs2, hg2⟩ := createGroupStep_ok h5
  cases h8.symm
  refine ⟨hs1, hg1, hs2, hg2, hg1 ▸ h3, hg2 ▸ h7, ?_⟩
  simp only [rbind_fst_ok h1, rbind_fst_ok h3, rbind_fst_ok h5, rbind_fst_ok h7]
  simp [getGroupStep, createGroupStep, rpure, hg1, hg2]

theorem phaseZones_ok {env : Env} {okId dummyId : String} {zs : FixtureZones}
    (h : (phaseZones env okId dummyId).2 = Except.ok zs) :
    (∀ p ∈ catalog okId dummyId, (env.createZone p.2).1 = 202) ∧
    zs = { ok_zone := (env.createZone (okZoneSpec okId)).2,
           dummy_zone := (env.createZone (dummyZoneSpec dummyId)).2,
           ip6_reverse_zone := (env.createZone (ip6ReverseZoneSpec okId)).2,
           ip4_reverse_zone := (env.createZone (ip4ReverseZoneSpec okId)).2,
           classless_base_zone := (env.createZone (classlessBaseZoneSpec okId)).2,
           classless_zone_delegation_zone :=
             (env.createZone (classlessDelegationZoneSpec okId)).2,
           system_test_zone := (env.createZone (systemTestZoneSpec okId)).2,
           parent_zone := (env.createZone (parentZoneSpec okId)).2 } ∧
    (phaseZones env okId dummyId).1 =
      (catalog okId dummyId).map fun p => Call.createZone p.1 p.2 202 := by
  unfold phaseZones at h ⊢
  obtain ⟨okZ, h1, h2⟩ := rbind_ok_ex h
  obtain ⟨dZ, h3, h4⟩ := rbind_ok_ex h2
  obtain ⟨ip6Z, h5, h6⟩ := rbind_ok_ex h4
  obtain ⟨ip4Z, h7, h8⟩ := rbind_ok_ex h6
  obtain ⟨cbZ, h9, h10⟩ := rbind_ok_ex h8
  obtain ⟨cdZ, h11, h12⟩ := rbind_ok_ex h10
  obtain ⟨stZ, h13, h14⟩ := rbind_ok_ex h12
  obtain ⟨pZ, h15, h16⟩ := rbind_ok_ex h14
  simp only [rpure] at h16
  obtain ⟨s1, e1⟩ := createZoneStep_ok h1
  obtain ⟨s2, e2⟩ := createZoneStep_ok h3
  obtain ⟨s3, e3⟩ := createZoneStep_ok h5
  obtain ⟨s4, e4⟩ := createZoneStep_ok h7
  obtain ⟨s5, e5⟩ := createZoneStep_ok h9
  obtain ⟨s6, e6⟩ := createZoneStep_ok h11
  obtain ⟨s7, e7⟩ := createZoneStep_ok h13
  obtain ⟨s8, e8⟩ := createZoneStep_ok h15
  cases h16.symm
  refine ⟨?_, ?_, ?_⟩
  · intro p hp
    simp only [catalog, List.mem_cons, List.mem_singleton] at hp
    rcases hp with rfl | rfl | rfl | rfl | rfl | rfl | rfl | rfl | hp
    · exact s1
    · exact s2
    · exact s3
    · exact s4
    · exact s5
    · exact s6
    · exact s7
    · exact s8
    · simp at hp
  · rw [e1, e2, e3, e4, e5, e6, e7, e8]
  · simp only [rbind_fst_ok h1, rbind_fst_ok h3, rbind_fst_ok h5, rbind_fst_ok h7,
      rbind_fst_ok h9, rbind_fst_ok h11, rbind_fst_ok h13, rbind_fst_ok h15]
    simp [createZoneStep, rpure, catalog]

/-- The nine awaited `(client, zone name)` pairs, in the source's wait order. -/
def waitList : List (ClientId × String) :=
  [(ClientId.ok, "system-test."), (ClientId.ok, "ok."), (ClientId.dummy, "dummy."),
   (ClientId.ok, "1.9.e.f.c.c.7.2.9.6.d.f.ip6.arpa."),
   (ClientId.ok, "30.172.in-addr.arpa."), (ClientId.ok, "2.0.192.in-addr.arpa."),
   (ClientId.ok, "192/30.2.0.192.in-addr.arpa."), (ClientId.ok, "system-test."),
   (ClientId.ok, "parent.com.")]

theorem phaseWaits_ok {env : Env} (h : (phaseWaits env).2 = Except.ok ()) :
    (∀ p ∈ waitList, env.waitOk p.2 = true) ∧
    (phaseWaits env).1 = waitList.map fun p => Call.waitZone p.1 p.2 := by
  unfold phaseWaits at h ⊢
  obtain ⟨u1, h1, h2⟩ := rbind_ok_ex h
  obtain ⟨u2, h3, h4⟩ := rbind_ok_ex h2
  obtain ⟨u3, h5, h6⟩ := rbind_ok_ex h4
  obtain ⟨u4, h7, h8⟩ := rbind_ok_ex h6
  obtain ⟨u5, h9, h10⟩ := rbind_ok_ex h8
  obtain ⟨u6, h11, h12⟩ := rbind_ok_ex h10
  obtain ⟨u7, h13, h14⟩ := rbind_ok_ex h12
  obtain ⟨u8, h15, h16⟩ := rbind_ok_ex h14
  cases u1; cases u2; cases u3; cases u4; cases u5; cases u6; cases u7; cases u8
  have w1 := waitStep_ok h1
  have w2 := waitStep_ok h3
  have w3 := waitStep_ok h5
  have w4 := waitStep_ok h7
  have w5 := waitStep_ok h9
  have w6 := waitStep_ok h11
  have w7 := waitStep_ok h13
  have w8 := waitStep_ok h15
  have w9 := waitStep_ok h16
  constructor
  · intro p hp
    simp only [waitList, List.mem_cons, List.mem_singleton] at hp
    rcases hp with rfl | rfl | rfl | rfl | rfl | rfl | rfl | rfl | rfl | hp
    · exact w1
    · exact w2
    · exact w3
    · exact w4
    · exact w5
    · exact w6
    · exact w7
    · exact w8
    · exact w9
    · simp at hp
  · simp only [rbind_fst_ok h1, rbind_fst_ok h3, rbind_fst_ok h5, rbind_fst_ok h7,
      rbind_fst_ok h9, rbind_fst_ok h11, rbind_fst_ok h13, rbind_fst_ok h15]
    simp [waitStep, waitList]

theorem phaseValidate_ok {env : Env} (h : (phaseValidate env).2 = Except.ok ()) :
    (env.listZonesResp ClientId.dummy).length = 2 ∧
    (env.listZonesResp ClientId.ok).length = 7 ∧
    (phaseValidate env).1 =
      [Call.listZones ClientId.dummy, Call.listZones ClientId.ok] := by
  unfold phaseValidate at h ⊢
  obtain ⟨dzs, h1, h2⟩ := rbind_ok_ex h
  obtain ⟨u1, h3, h4⟩ := rbind_ok_ex h2
  obtain ⟨ozs, h5, h6⟩ := rbind_ok_ex h4
  cases u1
  have hd : dzs = env.listZonesResp ClientId.dummy := by
    have hc := h1
    simp only [listZonesStep] at hc
    exact ((Except.ok.injEq _ _).mp hc).symm
  have ho : ozs = env.listZonesResp ClientId.ok := by
    have hc := h5
    simp only [listZonesStep] at hc
    exact ((Except.ok.injEq _ _).mp hc).symm
  have a1 := assertStep_ok h3
  have a2 := assertStep_ok h6
  rw [hd] at a1
  rw [ho] at a2
  simp only [beq_iff_eq] at a1 a2
  refine ⟨a1, a2, ?_⟩
  simp only [rbind_fst_ok h1, rbind_fst_ok h3, rbind_fst_ok h5]
  simp [listZonesStep, assertStep]

theorem acquireBody_ok {env : Env} {fx : Fixture}
    (h : (acquireBody env).2 = Except.ok fx) :
    ∃ gs : Group × Group, ∃ zs : FixtureZones,
      (phaseGroups env).2 = Except.ok gs ∧
      (phaseZones env gs.1.id gs.2.id).2 = Except.ok zs ∧
      (phaseWaits env).2 = Except.ok () ∧
      (phaseValidate env).2 = Except.ok () ∧
      fx = { ok_group := gs.1, dummy_group := gs.2, zones := zs } ∧
      (acquireBody env).1 =
        (phaseGroups env).1 ++ (phaseZones env gs.1.id gs.2.id).1 ++
          (phaseWaits env).1 ++ (phaseValidate env).1 := by
  unfold acquireBody at h ⊢
  obtain ⟨gs, h1, h2⟩ := rbind_ok_ex h
  obtain ⟨zs, h3, h4⟩ := rbind_ok_ex h2
  obtain ⟨u1, h5, h6⟩ := rbind_ok_ex h4
  obtain ⟨u2, h7, h8⟩ := rbind_ok_ex h6
  cases u1; cases u2
  simp only [rpure] at h8
  refine ⟨gs, zs, h1, h3, h5, h7, ((Except.ok.injEq _ _).mp h8).symm, ?_⟩
  simp only [rbind_fst_ok h1, rbind_fst_ok h3, rbind_fst_ok h5, rbind_fst_ok h7]
  simp [rpure]

theorem acquire_ok {env : Env} {fx : Fixture}
    (h : (acquire env).2 = Except.ok fx) :
    (tearDownCalls env.td1).2 = Except.ok () ∧
    (acquireBody env).2 = Except.ok fx ∧
    (acquire env).1 = (tearDownCalls env.td1).1 ++ (acquireBody env).1 := by
  unfold acquire at h ⊢
  obtain ⟨u, h1, h2⟩ := rbind_ok_ex h
  cases u
  refine ⟨h1, ?_, ?_⟩
  · revert h2
    rcases hb : acquireBody env with ⟨tr, r⟩
    cases r <;> simp
  · rw [rbind_fst_ok h1]
    revert h2
    rcases hb : acquireBody env with ⟨tr, r⟩
    cases r <;> simp

theorem pollLoop_calls (c : ClientId) (listR : Nat → Nat × List Group) (g : Group) :
    ∀ (fuel k : Nat) (s : Bool),
      createZoneArgs (pollLoop c listR g fuel k s).1 = [] ∧
      waitArgs (pollLoop c listR g fuel k s).1 = [] := by
  intro fuel
  induction fuel with
  | zero =>
    intro k s
    simp [pollLoop, rpure, createZoneArgs, waitArgs]
  | succ n ih =>
    intro k s
    cases s with
    | true => simp [pollLoop, rpure, createZoneArgs, waitArgs]
    | false =>
      by_cases hst : (listR k).1 = 200
      · have := ih (k + 1) (decide (g ∈ (listR k).2))
        simp [pollLoop, rbind, listCallStep, hst, createZoneArgs, waitArgs,
          List.filterMap_append] at this ⊢
        exact this
      · simp [pollLoop, rbind, listCallStep, hst, createZoneArgs, waitArgs]

theorem confirm_calls (c : ClientId) (listR : Nat → Nat × List Group) (g : Group) :
    createZoneArgs (confirm_member_in_group c listR g).1 = [] ∧
    waitArgs (confirm_member_in_group c listR g).1 = [] := by
  unfold confirm_member_in_group
  by_cases hst : (listR 0).1 = 200
  · have hp := pollLoop_calls c listR g 3 1 (decide (g ∈ (listR 0).2))
    simp [rbind, listCallStep, assertStep, hst, createZoneArgs, waitArgs,
      List.filterMap_append] at hp ⊢
    rcases hpl : pollLoop c listR g 3 1 (decide (g ∈ (listR 0).2)) with ⟨tr, r⟩
    rw [hpl] at hp
    cases r <;> simp_all [createZoneArgs, waitArgs]
  · simp [rbind, listCallStep, hst, createZoneArgs, waitArgs]

theorem tearDownCalls_calls (t : TdEnv) :
    createZoneArgs (tearDownCalls t).1 = [] ∧ waitArgs (tearDownCalls t).1 = [] := by
  rcases t with ⟨a, b, c, d, st⟩
  cases a <;> cases b <;> cases c <;> cases d <;>
    by_cases hst : st = 200 <;>
      simp [tearDownCalls, rbind, clearZonesStep, clearGroupsStep, updateGroupStep,
        hst, createZoneArgs, waitArgs]

/-- Every group left in the primary identity's listing after `tear_down` is
the baseline canonical record. -/
theorem tear_down_okGroups_all (s : RemoteState) :
    ∀ g ∈ (tear_down s).okGroups, g = okGroupBaseline := by
  intro g hg
  unfold tear_down update_group clear_groups clear_zones at hg
  simp only [List.mem_map, List.mem_filter] at hg
  obtain ⟨h, ⟨-, hmem⟩, hup⟩ := hg
  have hid : h.id = "ok" := by
    simpa using hmem
  rw [← hup, if_pos hid]

/-- A concrete pre-`tear_down` remote state used by the witnesses: a leftover
zone and group under each identity, plus the canonical `ok` group with
drifted membership. -/
def dirtyState : RemoteState :=
  { dummyZones := [{ id := "z1", name := "dummy.", aclRules := [] }],
    okZones := [{ id := "z2", name := "ok.", aclRules := [] }],
    dummyGroups := [{ id := "dg", name := "dummy-group", email := "test@test.com",
                      description := "this is a description",
                      members := ["dummy"], admins := ["dummy"] }],
    okGroups := [{ id := "other", name := "other", email := "test@test.com",
                   description := "x", members := ["a"], admins := ["a"] },
                 { id := "ok", name := "ok", email := "test@test.com",
                   description := "this is a description",
                   members := ["ok", "dummy"], admins := ["ok", "dummy"] }] }

/-- Claim C1: for every `acquire()` (fixture constructor) call that returns
successfully, `list_zones()` under the secondary (dummy) identity returned
exactly 2 zones and `list_zones()` under the primary (ok) identity exactly 7;
contrapositively, any mismatch means `acquire` cannot return a fixture — the
assertion failure aborts setup as a fatal error. -/
theorem C1_acquire_zone_counts (env : Env) (fx : Fixture)
    (h : (acquire env).2 = Except.ok fx) :
    (env.listZonesResp ClientId.dummy).length = 2 ∧
    (env.listZonesResp ClientId.ok).length = 7 := by
  obtain ⟨-, hb, -⟩ := acquire_ok h
  obtain ⟨gs, zs, -, -, -, hv, -, -⟩ := acquireBody_ok hb
  obtain ⟨d2, o7, -⟩ := phaseValidate_ok hv
  exact ⟨d2, o7⟩

theorem C1_acquire_zone_counts_witness :
    (acquire goodEnv).2 = Except.ok goodFx ∧
    (goodEnv.listZonesResp ClientId.dummy).length = 2 ∧
    (goodEnv.listZonesResp ClientId.ok).length = 7 :=
  ⟨by rfl, C1_acquire_zone_counts goodEnv goodFx (by rfl)⟩

/-- Claim C2: whenever the `try:` body of `__init__` (canonical group fetch,
membership confirmations, secondary group creation, zone creations,
convergence waits, count validation) raises, `acquire` attempts the recovery
`tear_down` — its calls appear in the trace after the failure — and the
original exception is re-raised unmasked: the overall outcome is that error
whatever the recovery teardown's own outcome was. -/
theorem C2_failure_cleanup_then_reraise (env : Env) (e : Err)
    (h1 : (tearDownCalls env.td1).2 = Except.ok ())
    (h2 : (acquireBody env).2 = Except.error e) :
    (acquire env).2 = Except.error e ∧
    (acquire env).1 =
      (tearDownCalls env.td1).1 ++ (acquireBody env).1 ++
        (tearDownCalls env.td2).1 := by
  have hb : acquireBody env = ((acquireBody env).1, Except.error e) := by
    rcases hx : acquireBody env with ⟨tr, r⟩
    rw [hx] at h2
    simp only at h2
    rw [h2]
  unfold acquire rbind
  rw [h1, hb]
  simp

/-- An environment where the canonical-group fetch fails with status 404 and
the recovery `tear_down`'s first helper call itself raises. -/
def badEnv : Env :=
  { goodEnv with
    getOkGroup := (404, okGroupBaseline),
    td2 := { tdEnvOk with clearZonesDummy := false } }

theorem C2_failure_cleanup_then_reraise_witness :
    (tearDownCalls badEnv.td1).2 = Except.ok () ∧
    (acquireBody badEnv).2 = Except.error (Err.statusErr 200 404) ∧
    (tearDownCalls badEnv.td2).2 = Except.error Err.clearFailed ∧
    (acquire badEnv).2 = Except.error (Err.statusErr 200 404) ∧
    (acquire badEnv).1 =
      (tearDownCalls badEnv.td1).1 ++ (acquireBody badEnv).1 ++
        (tearDownCalls badEnv.td2).1 :=
  ⟨by rfl, by rfl, by rfl,
   (C2_failure_cleanup_then_reraise badEnv (Err.statusErr 200 404)
     (by rfl) (by rfl)).1,
   (C2_failure_cleanup_then_reraise badEnv (Err.statusErr 200 404)
     (by rfl) (by rfl)).2⟩

/-- Claim C3: after `tear_down` returns, both identities own no zones, the
secondary identity owns no groups, every surviving primary-side group is the
canonical `ok` baseline record (members and admins exactly the primary
identity), and when a canonical group with id `ok` existed beforehand it
still exists afterwards — updated to the baseline, never deleted. -/
theorem C3_tear_down_resets_baseline (s : RemoteState)
    (h : ∃ g ∈ s.okGroups, g.id = "ok") :
    (tear_down s).dummyZones = [] ∧ (tear_down s).okZones = [] ∧
    (tear_down s).dummyGroups = [] ∧
    (∀ g ∈ (tear_down s).okGroups, g = okGroupBaseline) ∧
    okGroupBaseline ∈ (tear_down s).okGroups := by
  obtain ⟨g0, hg0, hid⟩ := h
  refine ⟨rfl, rfl, ?_, tear_down_okGroups_all s, ?_⟩
  · show (s.dummyGroups.filter fun g => ([] : List String).contains g.id) = []
    simp
  · show okGroupBaseline ∈
      (s.okGroups.filter fun g => (["ok"] : List String).contains g.id).map
        fun h => if h.id = "ok" then okGroupBaseline else h
    simp only [List.mem_map, List.mem_filter]
    exact ⟨g0, ⟨hg0, by simp [hid]⟩, by rw [if_pos hid]⟩

theorem C3_tear_down_resets_baseline_witness :
    (∃ g ∈ dirtyState.okGroups, g.id = "ok") ∧
    (tear_down dirtyState).dummyZones = [] ∧
    (tear_down dirtyState).okZones = [] ∧
    (tear_down dirtyState).dummyGroups = [] ∧
    (∀ g ∈ (tear_down dirtyState).okGroups, g = okGroupBaseline) ∧
    okGroupBaseline ∈ (tear_down dirtyState).okGroups :=
  ⟨by decide, C3_tear_down_resets_baseline dirtyState (by decide)⟩

/-- Dropping the groups a filter rejects and resetting the survivors is
stable under repetition, provided the reset value survives the filter and
every survivor resets to it. -/
theorem filter_map_stable (p : Group → Bool) (u : Group → Group)
    (hu : ∀ g, p g = true → u g = okGroupBaseline)
    (hb : p okGroupBaseline = true) (L : List Group) :
    ((((L.filter p).map u).filter p).map u) = (L.filter p).map u := by
  induction L with
  | nil => simp
  | cons g L ih =>
    by_cases hg : p g = true
    · rw [List.filter_cons_of_pos hg, List.map_cons, hu g hg,
        List.filter_cons_of_pos hb, List.map_cons, hu _ hb, ih]
    · rw [List.filter_cons_of_neg (by simpa using hg)]
      exact ih

/-- Filtering on membership in the empty exclusion list deletes everything. -/
theorem filter_empty_exclude (L : List Group) :
    (L.filter fun g => ([] : List String).contains g.id) = [] := by
  induction L with
  | nil => rfl
  | cons g L ih => simp [List.filter, ih]

/-- Claim C4: running `tear_down` twice leaves the remote state exactly as
one run does — no zones for either identity, no secondary groups, and every
surviving primary group equal to the canonical `ok` baseline. -/
theorem C4_tear_down_idempotent (s : RemoteState) :
    tear_down (tear_down s) = tear_down s ∧
    (tear_down (tear_down s)).dummyZones = [] ∧
    (tear_down (tear_down s)).okZones = [] ∧
    (tear_down (tear_down s)).dummyGroups = [] ∧
    ∀ g ∈ (tear_down (tear_down s)).okGroups, g = okGroupBaseline := by
  refine ⟨?_, rfl, rfl, ?_, tear_down_okGroups_all (tear_down s)⟩
  · apply RemoteState.ext
    · rfl
    · rfl
    · exact (filter_empty_exclude _).trans (filter_empty_exclude _).symm
    · show ((((s.okGroups.filter fun g => (["ok"] : List String).contains g.id).map
          fun h => if h.id = "ok" then okGroupBaseline else h).filter
            fun g => (["ok"] : List String).contains g.id).map
              fun h => if h.id = "ok" then okGroupBaseline else h) =
        ((s.okGroups.filter fun g => (["ok"] : List String).contains g.id).map
          fun h => if h.id = "ok" then okGroupBaseline else h)
      refine filter_map_stable _ _ ?_ (by rfl) s.okGroups
      intro g hg
      have hid : g.id = "ok" := by
        simpa using hg
      rw [if_pos hid]
  · show ((tear_down s).dummyGroups.filter fun g =>
        ([] : List String).contains g.id) = []
    exact filter_empty_exclude _

/-- Complete behaviour of `confirm_member_in_group` when every listing call
returns status 200, by the first listing index at which the group appears:
one pre-loop listing with no sleep when found immediately, otherwise one
further listing per loop iteration each followed unconditionally by the 50 ms
sleep, at most three loop iterations, and a failed assertion when the group
never appears. -/
theorem confirm_member_spec (c : ClientId) (listR : Nat → Nat × List Group)
    (g : Group) (hst : ∀ k, (listR k).1 = 200) :
    (g ∈ (listR 0).2 →
      confirm_member_in_group c listR g =
        ([Call.listGroups c 200], Except.ok ())) ∧
    (g ∉ (listR 0).2 → g ∈ (listR 1).2 →
      confirm_member_in_group c listR g =
        ([Call.listGroups c 200, Call.listGroups c 200, Call.sleepMs 50],
         Except.ok ())) ∧
    (g ∉ (listR 0).2 → g ∉ (listR 1).2 → g ∈ (listR 2).2 →
      confirm_member_in_group c listR g =
        ([Call.listGroups c 200, Call.listGroups c 200, Call.sleepMs 50,
          Call.listGroups c 200, Call.sleepMs 50], Except.ok ())) ∧
    (g ∉ (listR 0).2 → g ∉ (listR 1).2 → g ∉ (listR 2).2 → g ∈ (listR 3).2 →
      confirm_member_in_group c listR g =
        ([Call.listGroups c 200, Call.listGroups c 200, Call.sleepMs 50,
          Call.listGroups c 200, Call.sleepMs 50,
          Call.listGroups c 200, Call.sleepMs 50], Except.ok ())) ∧
    (g ∉ (listR 0).2 → g ∉ (listR 1).2 → g ∉ (listR 2).2 → g ∉ (listR 3).2 →
      confirm_member_in_group c listR g =
        ([Call.listGroups c 200, Call.listGroups c 200, Call.sleepMs 50,
          Call.listGroups c 200, Call.sleepMs 50,
          Call.listGroups c 200, Call.sleepMs 50],
         Except.error Err.assertFailed)) := by
  refine ⟨fun h0 => ?_, fun h0 h1 => ?_, fun h0 h1 h2 => ?_,
    fun h0 h1 h2 h3 => ?_, fun h0 h1 h2 h3 => ?_⟩ <;>
    simp [confirm_member_in_group, pollLoop, listCallStep, assertStep, rbind,
      rpure, hst 0, hst 1, hst 2, hst 3, h0, *]

/-- A listing oracle that always returns status 200 and an empty listing, so
the awaited group never appears. -/
def absentList : Nat → Nat × List Group := fun _ => (200, [])

/-- Claim C5 (counterexample): with every listing returning status 200 and
the group never appearing, `confirm_member_in_group` performs 4 calls to
`list_all_my_groups` before raising the failed assertion — refuting the
claimed bound of at most 3 total calls. -/
theorem C5_counterexample :
    listCallCount (confirm_member_in_group ClientId.ok
      absentList okGroupBaseline).1 = 4 ∧
    ¬ listCallCount (confirm_member_in_group ClientId.ok
      absentList okGroupBaseline).1 ≤ 3 := by
  decide

/-- Claim C5 (amended): when every listing call returns status 200, an
execution of the membership-confirmation wait makes at most 4 (not 3) calls
to `list_all_my_groups` — the initial check plus up to three retries — before
declaring success or raising a failed assertion, and the 50 ms sleeps follow
each retry call only, so the sleeps number exactly one fewer than the calls
(in particular no sleep separates the initial check from the first retry). -/
theorem C5_amended_call_bound (c : ClientId) (listR : Nat → Nat × List Group)
    (g : Group) (hst : ∀ k, (listR k).1 = 200) :
    listCallCount (confirm_member_in_group c listR g).1 ≤ 4 ∧
    sleepCount (confirm_member_in_group c listR g).1 =
      listCallCount (confirm_member_in_group c listR g).1 - 1 := by
  obtain ⟨s0, s1, s2, s3, s4⟩ := confirm_member_spec c listR g hst
  by_cases h0 : g ∈ (listR 0).2
  · rw [s0 h0]; exact ⟨by simp [listCallCount], by simp [listCallCount, sleepCount]⟩
  by_cases h1 : g ∈ (listR 1).2
  · rw [s1 h0 h1]; exact ⟨by simp [listCallCount], by simp [listCallCount, sleepCount]⟩
  by_cases h2 : g ∈ (listR 2).2
  · rw [s2 h0 h1 h2]; exact ⟨by simp [listCallCount], by simp [listCallCount, sleepCount]⟩
  by_cases h3 : g ∈ (listR 3).2
  · rw [s3 h0 h1 h2 h3]; exact ⟨by simp [listCallCount], by simp [listCallCount, sleepCount]⟩
  · rw [s4 h0 h1 h2 h3]; exact ⟨by simp [listCallCount], by simp [listCallCount, sleepCount]⟩

theorem C5_amended_call_bound_witness :
    (∀ k, (absentList k).1 = 200) ∧
    listCallCount (confirm_member_in_group ClientId.dummy
      absentList okGroupBaseline).1 ≤ 4 ∧
    sleepCount (confirm_member_in_group ClientId.dummy
      absentList okGroupBaseline).1 =
      listCallCount (confirm_member_in_group ClientId.dummy
        absentList okGroupBaseline).1 - 1 :=
  ⟨fun _ => rfl,
   C5_amended_call_bound ClientId.dummy absentList okGroupBaseline
     fun _ => rfl⟩

/-- A listing oracle whose first answer misses the group and whose later
answers contain it. -/
def lateList : Nat → Nat × List Group :=
  fun k => (200, if k = 0 then [] else [okGroupBaseline])

/-- Claim C9 (counterexample): when the membership predicate first holds on
the second listing, the run ends `[list, list, sleep]` with success — a 50 ms
sleep is performed after the successful check, refuting "it performs no
sleep once success is observed" (and showing no sleep separates the failed
initial check from the next attempt). -/
theorem C9_counterexample :
    confirm_member_in_group ClientId.ok lateList okGroupBaseline =
      ([Call.listGroups ClientId.ok 200, Call.listGroups ClientId.ok 200,
        Call.sleepMs 50], Except.ok ()) ∧
    List.getLast? (confirm_member_in_group ClientId.ok lateList
      okGroupBaseline).1 = some (Call.sleepMs 50) :=
  ⟨by rfl, by rfl⟩

/-- Claim C9 (amended): the poller returns success as soon as the predicate
(the expected group appears in the listing) evaluates true and performs no
further listing; however, while a success on the initial pre-loop check
incurs no sleep, every in-loop check — including a successful one — is
unconditionally followed by the 50 ms sleep, and the sleep follows rather
than precedes the retry call. -/
theorem C9_amended_poll_behaviour (c : ClientId)
    (listR : Nat → Nat × List Group) (g : Group)
    (hst : ∀ k, (listR k).1 = 200) :
    (g ∈ (listR 0).2 →
      confirm_member_in_group c listR g =
        ([Call.listGroups c 200], Except.ok ())) ∧
    (g ∉ (listR 0).2 → g ∈ (listR 1).2 →
      confirm_member_in_group c listR g =
        ([Call.listGroups c 200, Call.listGroups c 200, Call.sleepMs 50],
         Except.ok ())) ∧
    (g ∉ (listR 0).2 → g ∉ (listR 1).2 → g ∈ (listR 2).2 →
      confirm_member_in_group c listR g =
        ([Call.listGroups c 200, Call.listGroups c 200, Call.sleepMs 50,
          Call.listGroups c 200, Call.sleepMs 50], Except.ok ())) ∧
    (g ∉ (listR 0).2 → g ∉ (listR 1).2 → g ∉ (listR 2).2 → g ∈ (listR 3).2 →
      confirm_member_in_group c listR g =
        ([Call.listGroups c 200, Call.listGroups c 200, Call.sleepMs 50,
          Call.listGroups c 200, Call.sleepMs 50,
          Call.listGroups c 200, Call.sleepMs 50], Except.ok ())) ∧
    (g ∉ (listR 0).2 → g ∉ (listR 1).2 → g ∉ (listR 2).2 → g ∉ (listR 3).2 →
      confirm_member_in_group c listR g =
        ([Call.listGroups c 200, Call.listGroups c 200, Call.sleepMs 50,
          Call.listGroups c 200, Call.sleepMs 50,
          Call.listGroups c 200, Call.sleepMs 50],
         Except.error Err.assertFailed)) :=
  confirm_member_spec c listR g hst

theorem C9_amended_poll_behaviour_witness :
    (∀ k, (lateList k).1 = 200) ∧
    okGroupBaseline ∉ (lateList 0).2 ∧
    okGroupBaseline ∈ (lateList 1).2 ∧
    confirm_member_in_group ClientId.ok lateList okGroupBaseline =
      ([Call.listGroups ClientId.ok 200, Call.listGroups ClientId.ok 200,
        Call.sleepMs 50], Except.ok ()) :=
  ⟨fun _ => rfl, by decide, by decide,
   (C9_amended_poll_behaviour ClientId.ok lateList okGroupBaseline
     fun _ => rfl).2.1 (by decide) (by decide)⟩

theorem createZoneArgs_append (a b : List Call) :
    createZoneArgs (a ++ b) = createZoneArgs a ++ createZoneArgs b := by
  simp [createZoneArgs]

theorem createZoneArgs_cons (c : Call) (t : List Call) :
    createZoneArgs (c :: t) =
      (match c with
        | Call.createZone cl s e => [(cl, s, e)]
        | _ => []) ++ createZoneArgs t := by
  cases c <;> simp [createZoneArgs]

theorem waitArgs_append (a b : List Call) :
    waitArgs (a ++ b) = waitArgs a ++ waitArgs b := by
  simp [waitArgs]

theorem createZoneArgs_nil : createZoneArgs [] = [] := rfl

theorem waitArgs_nil : waitArgs [] = [] := rfl

theorem waitArgs_cons (c : Call) (t : List Call) :
    waitArgs (c :: t) =
      (match c with
        | Call.waitZone cl n => [(cl, n)]
        | _ => []) ++ waitArgs t := by
  cases c <;> simp [waitArgs]

/-- Claim C6: on a successful `acquire`, the `create_zone` calls of the run
are exactly the eight fixture-catalog requests — `ok.` (shared=false,
primary), `dummy.` (shared=false, secondary), the two shared reverse zones,
the two classless zones, `system-test.` (shared=true) and `parent.com.` —
each issued with required status 202; and the remote's status for every
catalog request was 202, so any non-pending response would have made the run
raise instead of return (it is never treated as success). -/
theorem C6_create_zone_catalog (env : Env) (fx : Fixture)
    (h : (acquire env).2 = Except.ok fx) :
    createZoneArgs (acquire env).1 =
      (catalog fx.ok_group.id fx.dummy_group.id).map (fun p => (p.1, p.2, 202)) ∧
    ∀ p ∈ catalog fx.ok_group.id fx.dummy_group.id,
      (env.createZone p.2).1 = 202 := by
  obtain ⟨htd, hb, htr⟩ := acquire_ok h
  obtain ⟨gs, zs, hg, hz, hw, hv, hfx, hbtr⟩ := acquireBody_ok hb
  obtain ⟨-, -, -, -, -, -, hgtr⟩ := phaseGroups_ok hg
  obtain ⟨h202, -, hztr⟩ := phaseZones_ok hz
  obtain ⟨-, hwtr⟩ := phaseWaits_ok hw
  obtain ⟨-, -, hvtr⟩ := phaseValidate_ok hv
  subst hfx
  refine ⟨?_, h202⟩
  rw [htr, hbtr, hgtr, hztr, hwtr, hvtr]
  have e1 := (tearDownCalls_calls env.td1).1
  have e2 := (confirm_calls ClientId.ok env.okGroupsList gs.1).1
  have e3 := (confirm_calls ClientId.dummy env.dummyGroupsList gs.2).1
  simp [createZoneArgs_append, createZoneArgs_cons, createZoneArgs_nil, e1, e2, e3,
    catalog, waitList]

theorem C6_create_zone_catalog_witness :
    (acquire goodEnv).2 = Except.ok goodFx ∧
    createZoneArgs (acquire goodEnv).1 =
      (catalog goodFx.ok_group.id goodFx.dummy_group.id).map
        (fun p => (p.1, p.2, 202)) ∧
    ∀ p ∈ catalog goodFx.ok_group.id goodFx.dummy_group.id,
      (goodEnv.createZone p.2).1 = 202 :=
  ⟨by rfl, C6_create_zone_catalog goodEnv goodFx (by rfl)⟩

/-- Claim C7: on a successful `acquire`, the `wait_until_zone_exists` calls
are exactly the nine of the source — every one of the eight pending changes
awaited at least once with the `system-test.` change awaited twice — the wait
order differs from the creation order, and all the waits sit before the two
validating `list_zones` calls in the trace, so the fixture is never ready
with an unawaited change. -/
theorem C7_waits_cover_catalog (env : Env) (fx : Fixture)
    (h : (acquire env).2 = Except.ok fx) :
    waitArgs (acquire env).1 = waitList ∧
    (∀ p ∈ catalog fx.ok_group.id fx.dummy_group.id,
      ∃ q ∈ waitList, q.2 = p.2.name) ∧
    waitList.length = 9 ∧
    (waitList.map Prod.snd).count "system-test." = 2 ∧
    (waitList.map Prod.snd) ≠
      (catalog fx.ok_group.id fx.dummy_group.id).map (fun p => p.2.name) ∧
    ∃ pre, (acquire env).1 =
      pre ++ (waitList.map fun p => Call.waitZone p.1 p.2) ++
        [Call.listZones ClientId.dummy, Call.listZones ClientId.ok] := by
  obtain ⟨htd, hb, htr⟩ := acquire_ok h
  obtain ⟨gs, zs, hg, hz, hw, hv, hfx, hbtr⟩ := acquireBody_ok hb
  obtain ⟨-, -, -, -, -, -, hgtr⟩ := phaseGroups_ok hg
  obtain ⟨-, -, hztr⟩ := phaseZones_ok hz
  obtain ⟨-, hwtr⟩ := phaseWaits_ok hw
  obtain ⟨-, -, hvtr⟩ := phaseValidate_ok hv
  subst hfx
  refine ⟨?_, ?_, by decide, by decide, ?_, ?_⟩
  · rw [htr, hbtr, hgtr, hztr, hwtr, hvtr]
    have e1 := (tearDownCalls_calls env.td1).2
    have e2 := (confirm_calls ClientId.ok env.okGroupsList gs.1).2
    have e3 := (confirm_calls ClientId.dummy env.dummyGroupsList gs.2).2
    simp [waitArgs_append, waitArgs_cons, waitArgs_nil, e1, e2, e3, catalog, waitList]
  · intro p hp
    simp only [catalog, List.mem_cons, List.mem_singleton] at hp
    rcases hp with rfl | rfl | rfl | rfl | rfl | rfl | rfl | rfl | hp
    · exact ⟨(ClientId.ok, "ok."), by decide, rfl⟩
    · exact ⟨(ClientId.dummy, "dummy."), by decide, rfl⟩
    · exact ⟨(ClientId.ok, "1.9.e.f.c.c.7.2.9.6.d.f.ip6.arpa."), by decide, rfl⟩
    · exact ⟨(ClientId.ok, "30.172.in-addr.arpa."), by decide, rfl⟩
    · exact ⟨(ClientId.ok, "2.0.192.in-addr.arpa."), by decide, rfl⟩
    · exact ⟨(ClientId.ok, "192/30.2.0.192.in-addr.arpa."), by decide, rfl⟩
    · exact ⟨(ClientId.ok, "system-test."), by decide, rfl⟩
    · exact ⟨(ClientId.ok, "parent.com."), by decide, rfl⟩
    · simp at hp
  · intro hcontra
    have h0 := congrArg (fun l => l.head?) hcontra
    simp [waitList, catalog, okZoneSpec] at h0
  · refine ⟨(tearDownCalls env.td1).1 ++ (phaseGroups env).1 ++
      (phaseZones env gs.1.id gs.2.id).1, ?_⟩
    rw [htr, hbtr, hwtr, hvtr]
    simp [List.append_assoc]

theorem C7_waits_cover_catalog_witness :
    (acquire goodEnv).2 = Except.ok goodFx ∧
    waitArgs (acquire goodEnv).1 = waitList ∧
    (∀ p ∈ catalog goodFx.ok_group.id goodFx.dummy_group.id,
      ∃ q ∈ waitList, q.2 = p.2.name) :=
  ⟨by rfl, (C7_waits_cover_catalog goodEnv goodFx (by rfl)).1,
   (C7_waits_cover_catalog goodEnv goodFx (by rfl)).2.1⟩

/-- Claim C8: the `parent.com.` zone request carries exactly one ACL rule —
`Delete` access for the secondary (`dummy`) identity, description
`some_test_rule` — and for any remote that echoes the submitted ACL into the
returned pending-zone representation (as the spec's data model describes),
the `parent_zone` the fixture exposes contains exactly that one rule. -/
theorem C8_parent_zone_acl (env : Env) (fx : Fixture)
    (hecho : ((env.createZone (parentZoneSpec fx.ok_group.id)).2).aclRules =
      (parentZoneSpec fx.ok_group.id).aclRules)
    (h : (acquire env).2 = Except.ok fx) :
    fx.zones.parent_zone.aclRules =
      [{ accessLevel := "Delete", description := "some_test_rule",
         userId := "dummy" }] ∧
    ∀ gid, (parentZoneSpec gid).aclRules =
      [{ accessLevel := "Delete", description := "some_test_rule",
         userId := "dummy" }] := by
  obtain ⟨-, hb, -⟩ := acquire_ok h
  obtain ⟨gs, zs, hg, hz, -, -, hfx, -⟩ := acquireBody_ok hb
  obtain ⟨-, hzs, -⟩ := phaseZones_ok hz
  subst hfx
  subst hzs
  exact ⟨hecho, fun gid => rfl⟩

theorem C8_parent_zone_acl_witness :
    ((goodEnv.createZone (parentZoneSpec goodFx.ok_group.id)).2).aclRules =
      (parentZoneSpec goodFx.ok_group.id).aclRules ∧
    (acquire goodEnv).2 = Except.ok goodFx ∧
    goodFx.zones.parent_zone.aclRules =
      [{ accessLevel := "Delete", description := "some_test_rule",
         userId := "dummy" }] :=
  ⟨by rfl, by rfl,
   (C8_parent_zone_acl goodEnv goodFx (by rfl) (by rfl)).1⟩

/-- Claim C10: the zone objects a successful fixture exposes are exactly the
`zone` fields of the pending `create_zone` responses the environment supplied
at creation time — for every environment, whatever the listings, waits or any
later answer return — so callers always observe the pre-convergence
representation; likewise the exposed groups are the original fetch/create
responses. -/
theorem C10_zones_frozen_at_creation (env : Env) (fx : Fixture)
    (h : (acquire env).2 = Except.ok fx) :
    fx.ok_group = (env.getOkGroup).2 ∧
    fx.dummy_group = (env.createDummyGroup).2 ∧
    fx.zones.ok_zone = (env.createZone (okZoneSpec fx.ok_group.id)).2 ∧
    fx.zones.dummy_zone = (env.createZone (dummyZoneSpec fx.dummy_group.id)).2 ∧
    fx.zones.ip6_reverse_zone =
      (env.createZone (ip6ReverseZoneSpec fx.ok_group.id)).2 ∧
    fx.zones.ip4_reverse_zone =
      (env.createZone (ip4ReverseZoneSpec fx.ok_group.id)).2 ∧
    fx.zones.classless_base_zone =
      (env.createZone (classlessBaseZoneSpec fx.ok_group.id)).2 ∧
    fx.zones.classless_zone_delegation_zone =
      (env.createZone (classlessDelegationZoneSpec fx.ok_group.id)).2 ∧
    fx.zones.system_test_zone =
      (env.createZone (systemTestZoneSpec fx.ok_group.id)).2 ∧
    fx.zones.parent_zone =
      (env.createZone (parentZoneSpec fx.ok_group.id)).2 := by
  obtain ⟨-, hb, -⟩ := acquire_ok h
  obtain ⟨gs, zs, hg, hz, -, -, hfx, -⟩ := acquireBody_ok hb
  obtain ⟨-, hg1, -, hg2, -, -, -⟩ := phaseGroups_ok hg
  obtain ⟨-, hzs, -⟩ := phaseZones_ok hz
  subst hfx
  subst hzs
  exact ⟨hg1, hg2, rfl, rfl, rfl, rfl, rfl, rfl, rfl, rfl⟩

theorem C10_zones_frozen_at_creation_witness :
    (acquire goodEnv).2 = Except.ok goodFx ∧
    goodFx.zones.parent_zone =
      (goodEnv.createZone (parentZoneSpec goodFx.ok_group.id)).2 ∧
    goodFx.zones.ok_zone =
      (goodEnv.createZone (okZoneSpec goodFx.ok_group.id)).2 :=
  ⟨by rfl, (C10_zones_frozen_at_creation goodEnv goodFx (by rfl)).2.2.2.2.2.2.2.2.2,
   (C10_zones_frozen_at_creation goodEnv goodFx (by rfl)).2.2.1⟩

end Vinyldns
